import Mathlib

/-!
Verification of the theme-state controller in `src/contexts/theme.tsx`.

The controller is shallowly embedded: each side-effecting operation is a
pure function from its inputs (the OS color-scheme signal, the stored
preference, the loadedness of the two audio buffers, the current
`ThemeState`) to the list of effects it performs, in order.  Theme values
flow through the TypeScript code as raw strings (the `DisplayTheme`
annotations are unchecked casts), so the embedding uses `Option String`
for both fields of the state, with `none` standing for JavaScript `null`.
-/

set_option autoImplicit false

namespace Theme

/-- Mirror of the `ThemeState` interface: `displayTheme` is the stored
preference, `actualTheme` the resolved theme; both start as `null`. -/
structure ThemeState where
  displayTheme : Option String
  actualTheme : Option String
  deriving DecidableEq, Repr

/-- Mirror of the `AudioRef` interface: whether each of the two audio
buffers has finished loading (`switchOn` for `switch-on.mp3`,
`switchOff` for `switch-off.mp3`). -/
structure AudioRef where
  switchOn : Bool
  switchOff : Bool
  deriving DecidableEq, Repr

/-- Mirror of the `ThemeValue` interface handed out through the context
(the `switchTheme` closure is modelled separately as `switchTheme`). -/
structure ThemeValue where
  displayTheme : Option String
  deriving DecidableEq, Repr

/-- One observable side effect of the controller, in the order the code
performs them: starting an asynchronous sound load, a `setState` call, a
`localStorage.setItem` write, or playing one of the two audio cues. -/
inductive Effect where
  | loadSound (path : String)
  | setState (s : ThemeState)
  | persist (key value : String)
  | playCue (cue : String)
  deriving DecidableEq, Repr

/-- `DISPLAY_THEMES_ORDER` from `ThemeProvider` (theme.tsx line 26). -/
def DISPLAY_THEMES_ORDER : List String := ["light", "dark", "system"]

/-- `getActualTheme` (theme.tsx lines 30-38).  The argument may be `null`
at the call site in the init effect, and `null !== 'system'` holds in JS,
so a `null` input is returned verbatim. -/
def getActualTheme (osDark : Bool) (displayTheme : Option String) : Option String :=
  if displayTheme ≠ some "system" then displayTheme
  else if osDark then some "dark" else some "light"

/-- JavaScript `Array.prototype.findIndex`: the index of the first element
equal to `x`, or `-1` if none matches. -/
def findIndex (l : List String) (x : Option String) : Int :=
  match l.findIdx? (fun t => some t == x) with
  | some i => (i : Int)
  | none => -1

/-- The next-preference computation of `switchTheme` (theme.tsx lines
41-42): `DISPLAY_THEMES_ORDER[(currentIndex + 1) % DISPLAY_THEMES_ORDER.length]`,
where `currentIndex` is `-1` when the current preference is not in the
order list (in particular when it is still `null`). -/
def cycle (x : Option String) : String :=
  DISPLAY_THEMES_ORDER.getD
    ((findIndex DISPLAY_THEMES_ORDER x + 1) % (DISPLAY_THEMES_ORDER.length : Int)).toNat
    "undefined"

/-- `switchTheme` (theme.tsx lines 40-52) as its effect trace: the
`setState` call, then the `localStorage.setItem('theme', ...)` write,
then at most one cue chosen by the resulting actual theme and the
loadedness of its buffer. -/
def switchTheme (osDark : Bool) (audio : AudioRef) (state : ThemeState) : List Effect :=
  let displayTheme := cycle state.displayTheme
  let actualTheme := getActualTheme osDark (some displayTheme)
  [Effect.setState { state with displayTheme := some displayTheme, actualTheme := actualTheme },
   Effect.persist "theme" displayTheme] ++
  (if actualTheme == some "light" && audio.switchOn then [Effect.playCue "switch-on"]
   else if actualTheme == some "dark" && audio.switchOff then [Effect.playCue "switch-off"]
   else [])

/-- The state written by the mount effect (theme.tsx lines 62-68): the
stored string is copied verbatim into `displayTheme`, and `actualTheme`
is `getActualTheme` of it. -/
def initState (osDark : Bool) (stored : Option String) (old : ThemeState) : ThemeState :=
  { old with displayTheme := stored, actualTheme := getActualTheme osDark stored }

/-- The full effect trace of the mount effect (theme.tsx lines 54-69):
two fire-and-forget sound loads, then the `setState`; no storage write. -/
def initEffects (osDark : Bool) (stored : Option String) (old : ThemeState) : List Effect :=
  [Effect.loadSound "/sounds/switch-on.mp3",
   Effect.loadSound "/sounds/switch-off.mp3",
   Effect.setState (initState osDark stored old)]

/-- `detectSystemThemeChange` (theme.tsx lines 73-80) as its effect trace:
`eventMatches` is `event.matches` of the media-query change event. -/
def detectSystemThemeChange (eventMatches : Bool) (state : ThemeState) : List Effect :=
  if state.displayTheme == some "system" then
    [Effect.setState { state with actualTheme := some (if eventMatches then "dark" else "light") }]
  else []

/-- Environment the inline pre-hydration script runs in: the stored
`theme` value, the OS signal, and whether the `dark` class is on the
document element. -/
structure BootstrapEnv where
  stored : Option String
  osDark : Bool
  hasDarkClass : Bool
  deriving DecidableEq, Repr

/-- The inline pre-hydration script (theme.tsx lines 114-127): reads the
stored value, applies or removes the `dark` class, and persists
`"system"` exactly in the absent/other branches. -/
def bootstrapScript (env : BootstrapEnv) : BootstrapEnv :=
  if env.stored == some "dark" then { env with hasDarkClass := true }
  else if env.stored == some "light" then { env with hasDarkClass := false }
  else if env.osDark then { env with hasDarkClass := true, stored := some "system" }
  else { env with hasDarkClass := false, stored := some "system" }

/-- `useTheme` (theme.tsx lines 135-141): an absent context value throws,
a present one is returned unchanged. -/
def useTheme (context : Option ThemeValue) : Except String ThemeValue :=
  match context with
  | none => Except.error "useTheme must be used within a ThemeProvider"
  | some c => Except.ok c

/-- C6: `getActualTheme` is a pure resolve function: for every OS-signal
value `s`, light maps to light, dark to dark, and system to the OS signal
(dark when the OS prefers dark, light otherwise). -/
theorem getActualTheme_pure (s : Bool) :
    getActualTheme s (some "light") = some "light" ∧
    getActualTheme s (some "dark") = some "dark" ∧
    getActualTheme s (some "system") = some (if s then "dark" else "light") := by
  cases s <;> exact ⟨rfl, rfl, rfl⟩

/-- C7: `cycle` is a total 3-cycle on the three known preferences:
applying it three times returns to the start, and its value is always one
of the three known preferences (never an undefined next state). -/
theorem cycle_three_cycle (p : String)
    (hp : p = "light" ∨ p = "dark" ∨ p = "system") :
    cycle (some (cycle (some (cycle (some p))))) = p ∧
    (cycle (some p) = "light" ∨ cycle (some p) = "dark" ∨ cycle (some p) = "system") := by
  rcases hp with h | h | h <;> subst h <;> exact ⟨rfl, by decide⟩

/-- Witness for `cycle_three_cycle` at the concrete preference `light`. -/
theorem cycle_three_cycle_witness :
    cycle (some (cycle (some (cycle (some "light"))))) = "light" ∧
    (cycle (some "light") = "light" ∨ cycle (some "light") = "dark" ∨
      cycle (some "light") = "system") :=
  cycle_three_cycle "light" (Or.inl rfl)

/-- C1: for every known preference `p`, `switchTheme` emits exactly, in
this order: a `setState` to `(cycle p, getActualTheme (cycle p))` where
`cycle` follows the fixed order light, dark, system, light; the
persistence of `cycle p` under the key `theme`; and then the `switch-on`
cue when the resulting actual theme is light and that buffer is loaded,
else the `switch-off` cue when it is dark and that buffer is loaded. -/
theorem switchTheme_known_preference (p next : String)
    (hp : (p, next) = ("light", "dark") ∨ (p, next) = ("dark", "system") ∨
      (p, next) = ("system", "light"))
    (osDark loadOn loadOff : Bool) (a : Option String) :
    switchTheme osDark ⟨loadOn, loadOff⟩ ⟨some p, a⟩ =
      [Effect.setState ⟨some next, getActualTheme osDark (some next)⟩,
       Effect.persist "theme" next] ++
      (if getActualTheme osDark (some next) == some "light" && loadOn then
        [Effect.playCue "switch-on"]
       else if getActualTheme osDark (some next) == some "dark" && loadOff then
        [Effect.playCue "switch-off"]
       else []) := by
  rcases hp with h | h | h <;>
    (injection h with h1 h2; subst h1; subst h2) <;>
    cases osDark <;> cases loadOn <;> cases loadOff <;> rfl

/-- Witness for `switchTheme_known_preference`: preference light, OS
light, both buffers loaded. -/
theorem switchTheme_known_preference_witness :
    switchTheme false ⟨true, true⟩ ⟨some "light", none⟩ =
      [Effect.setState ⟨some "dark", getActualTheme false (some "dark")⟩,
       Effect.persist "theme" "dark"] ++
      (if getActualTheme false (some "dark") == some "light" && true then
        [Effect.playCue "switch-on"]
       else if getActualTheme false (some "dark") == some "dark" && true then
        [Effect.playCue "switch-off"]
       else []) :=
  switchTheme_known_preference "light" "dark" (Or.inl rfl) false true true none

/-- C2 counterexample: with the stored preference absent and the OS
preferring dark, the mount effect leaves `actualTheme` at `none`; it is
not derived from the OS signal as the claim states (that would require
`some "dark"`), because `null !== 'system'` makes `getActualTheme` return
the `null` input verbatim. -/
theorem initState_absent_cex :
    (initState true none ⟨none, none⟩).actualTheme = none ∧
    (initState true none ⟨none, none⟩).actualTheme ≠ some "dark" := by
  exact ⟨rfl, by decide⟩

/-- C2 amended: when the stored preference is absent, the mount effect
copies the absent value verbatim into both fields (no resolution against
the OS signal happens), and it performs no storage write. -/
theorem initState_absent_copies_null (osDark : Bool) (old : ThemeState) :
    initState osDark none old = ⟨none, none⟩ ∧
    (∀ k v, Effect.persist k v ∉ initEffects osDark none old) := by
  refine ⟨rfl, ?_⟩
  intro k v h
  simp [initEffects] at h

/-- C3 counterexample: preference dark, OS dark, both buffers loaded.
The switch goes to preference system, the resulting actual theme (dark)
equals the previous actual theme, the preference did change, and yet the
`switch-off` cue is played. -/
theorem switchTheme_same_actual_cex :
    cycle (some "dark") = "system" ∧
    getActualTheme true (some "system") = some "dark" ∧
    Effect.playCue "switch-off" ∈ switchTheme true ⟨true, true⟩ ⟨some "dark", some "dark"⟩ := by
  exact ⟨rfl, rfl, by decide⟩

/-- C3 amended: cue selection depends only on the resulting actual
theme, so for every OS signal, every preference, and every loadedness of
the two buffers, a switch whose resulting actual theme equals the
previous one (while the preference changed) still plays the cue of the
resulting actual theme whenever that buffer is loaded. -/
theorem switchTheme_same_actual_still_plays (osDark : Bool) (d a : Option String)
    (loadOn loadOff : Bool)
    (_hchanged : some (cycle d) ≠ d)
    (hsame : getActualTheme osDark (some (cycle d)) = a) :
    (a = some "light" → loadOn = true →
      Effect.playCue "switch-on" ∈ switchTheme osDark ⟨loadOn, loadOff⟩ ⟨d, a⟩) ∧
    (a = some "dark" → loadOff = true →
      Effect.playCue "switch-off" ∈ switchTheme osDark ⟨loadOn, loadOff⟩ ⟨d, a⟩) := by
  constructor <;> intro ha hl <;> subst ha <;> subst hl <;> simp [switchTheme, hsame]

/-- Witness for `switchTheme_same_actual_still_plays`: the dark-to-system
switch under a dark OS plays the `switch-off` cue, here with only the
relevant buffer (`switchOff`) loaded. -/
theorem switchTheme_same_actual_still_plays_witness :
    Effect.playCue "switch-off" ∈ switchTheme true ⟨false, true⟩ ⟨some "dark", some "dark"⟩ :=
  (switchTheme_same_actual_still_plays true (some "dark") (some "dark") false true
    (by decide) rfl).2 rfl rfl

/-- C4: the pre-hydration script implements exactly the bootstrap
decision table: stored `"dark"` applies the dark class, stored `"light"`
removes it (neither persists anything), and any other or absent value
applies the class iff the OS prefers dark and persists `"system"`. -/
theorem bootstrap_decision_table (s : Option String) (osDark dark0 : Bool) :
    bootstrapScript ⟨some "dark", osDark, dark0⟩ = ⟨some "dark", osDark, true⟩ ∧
    bootstrapScript ⟨some "light", osDark, dark0⟩ = ⟨some "light", osDark, false⟩ ∧
    (s ≠ some "dark" → s ≠ some "light" →
      bootstrapScript ⟨s, osDark, dark0⟩ = ⟨some "system", osDark, osDark⟩) := by
  refine ⟨rfl, rfl, ?_⟩
  intro h1 h2
  cases osDark <;> simp [bootstrapScript, h1, h2]

/-- Witness for `bootstrap_decision_table`: absent stored value under a
dark OS applies the dark class and persists `"system"`. -/
theorem bootstrap_decision_table_witness :
    bootstrapScript ⟨none, true, false⟩ = ⟨some "system", true, true⟩ :=
  (bootstrap_decision_table none true false).2.2 (by decide) (by decide)

/-- C5: the OS change handler updates only `actualTheme` (to dark iff the
notification's boolean is true) when the current preference is system,
drops the notification entirely otherwise, and in all cases performs no
storage write and plays no cue. -/
theorem detectSystemThemeChange_spec (eventMatches : Bool) (st : ThemeState) :
    (st.displayTheme = some "system" →
      detectSystemThemeChange eventMatches st =
        [Effect.setState ⟨some "system", some (if eventMatches then "dark" else "light")⟩]) ∧
    (st.displayTheme ≠ some "system" → detectSystemThemeChange eventMatches st = []) ∧
    (∀ k v, Effect.persist k v ∉ detectSystemThemeChange eventMatches st) ∧
    (∀ c, Effect.playCue c ∉ detectSystemThemeChange eventMatches st) := by
  obtain ⟨d, a⟩ := st
  refine ⟨?_, ?_, ?_, ?_⟩
  · intro h
    simp only at h
    subst h
    rfl
  · intro h
    simp only at h
    simp [detectSystemThemeChange, h]
  · intro k v h
    by_cases hd : d = some "system" <;>
      simp [detectSystemThemeChange, hd] at h
  · intro c h
    by_cases hd : d = some "system" <;>
      simp [detectSystemThemeChange, hd] at h

/-- Witness for `detectSystemThemeChange_spec`: a dark notification while
the preference is system sets the actual theme to dark. -/
theorem detectSystemThemeChange_spec_witness :
    detectSystemThemeChange true ⟨some "system", some "light"⟩ =
      [Effect.setState ⟨some "system", some "dark"⟩] :=
  (detectSystemThemeChange_spec true ⟨some "system", some "light"⟩).1 rfl

/-- C8: with the preference still unset (`null`), `findIndex` yields `-1`
so the next index is 0: the switch goes to preference light, resolved
actual theme light, persists `"light"`, and plays the `switch-on` cue
exactly when that buffer is loaded. -/
theorem switchTheme_unset (osDark loadOn loadOff : Bool) (a : Option String) :
    switchTheme osDark ⟨loadOn, loadOff⟩ ⟨none, a⟩ =
      [Effect.setState ⟨some "light", some "light"⟩, Effect.persist "theme" "light"] ++
      (if loadOn then [Effect.playCue "switch-on"] else []) := by
  cases osDark <;> cases loadOn <;> cases loadOff <;> rfl

/-- C9: `useTheme` with no context value present fails fast with the
clear error message, and with a context value present it returns exactly
that value (never an unusable one). -/
theorem useTheme_outside_scope :
    useTheme none = Except.error "useTheme must be used within a ThemeProvider" ∧
    ∀ c : ThemeValue, useTheme (some c) = Except.ok c :=
  ⟨rfl, fun _ => rfl⟩

/-- C10: the mount effect validates nothing: every stored string other
than `"system"` is copied verbatim into both the preference and the
actual-theme field (so the actual theme can hold a value outside the
light/dark enum), and an absent stored value leaves both fields `null`. -/
theorem initState_no_validation (osDark : Bool) (old : ThemeState) (s : String)
    (hs : s ≠ "system") :
    initState osDark (some s) old = ⟨some s, some s⟩ ∧
    initState osDark none old = ⟨none, none⟩ := by
  have h : (some s : Option String) ≠ some "system" := by simpa using hs
  exact ⟨by simp [initState, getActualTheme, h], rfl⟩

/-- Witness for `initState_no_validation` at the stored string
`"banana"`, a value outside the theme enum. -/
theorem initState_no_validation_witness :
    initState true (some "banana") ⟨none, none⟩ = ⟨some "banana", some "banana"⟩ ∧
    initState true none ⟨none, none⟩ = ⟨none, none⟩ :=
  initState_no_validation true ⟨none, none⟩ "banana" (by decide)

end Theme
